import Mathlib

/-!
Shallow embedding of the gofiberobservability request pipeline and handlers.

The Go service is embedded as pure Lean functions:
- middleware (`internal/middleware/logging.go`, `internal/middleware/recovery.go`)
  is modelled as `Handler → Handler` transformers over an explicit request
  context, where each run yields a result (normal return carrying an optional
  error, or a propagating panic), the final context, and the ordered list of
  observable events (log entries, metric recordings, span operations, header
  injection, cache writes) the stage emitted;
- Go `defer`/`recover` semantics are made explicit in each transformer: code
  after `c.Next()` runs only on normal return, while deferred calls
  (`span.End()`, the recovery closure) also run while a panic unwinds, in
  LIFO order of the stack frames;
- the user handlers (`internal/handler`, file with `ListUsers`/`GetUser`)
  are embedded as functions of their external inputs (cache lookup outcome,
  store lookup outcome, query parameters, table contents);
- the shutdown path of `cmd` `main` plus the `Shutdown`/`Close` functions of
  the pkg subsystems is embedded as a step sequence with per-step timeout
  bounds read off the source.
-/

/-- A user row, from `handler.User` (id, name, email, created_at). -/
structure User where
  id : Nat
  name : String
  email : String
  createdAt : Nat
deriving DecidableEq, Repr

/-- A Go error value as the middleware observes it: either a `*fiber.Error`
carrying a declared HTTP code, or any other error (only its message is
observable). -/
inductive GoError where
  | fiberError (code : Nat) (message : String)
  | errorf (message : String)
deriving DecidableEq, Repr

/-- The message of a Go error (`err.Error()`). -/
def GoError.message : GoError → String
  | .fiberError _ m => m
  | .errorf m => m

/-- The JSON body written to the response, structured (we never need raw bytes). -/
inductive RespBody where
  | empty
  | jsonError (message : String)
  | jsonUser (u : User)
  | jsonUserList (users : List User)
  | other (tag : String)
deriving DecidableEq, Repr

/-- One observable side effect of the pipeline, in emission order. -/
inductive Event where
  | logInfo (msg : String) (fields : List String)
  | logWarn (msg : String) (fields : List String)
  | logError (msg : String) (fields : List String)
  | counterInc (method route : String) (status : Nat)
  | durationObs (method route : String) (status : Nat)
  | sizeObs (which : String)
  | spanStart (name : String)
  | spanEnd
  | spanSetAttrStatus (status : Nat)
  | spanSetAttrStr (key val : String)
  | spanSetAttrBool (key : String) (val : Bool)
  | spanSetAttrInt (key : String) (val : Int)
  | spanRecordError (msg : String)
  | spanSetStatusError (msg : String)
  | injectHeaders
  | cacheSet (key : String) (value : User) (ttlMinutes : Nat)
deriving DecidableEq, Repr

/-- Outcome of running a handler or middleware stage: a normal Go return
(`err` is the returned `error`, `none` meaning nil) or a propagating panic
carrying the panic value's message. -/
inductive HResult where
  | ret (err : Option GoError)
  | panicked (msg : String)
deriving DecidableEq, Repr

/-- The observable fiber request context threaded through the stages.
`status`/`respBody` mirror `c.Response()`; `spanInCtx`/`spanRecording` mirror
whether `c.SetContext` installed a span and whether that span is still
recording (false after `span.End()`). -/
structure Ctx where
  method : String
  routePath : String
  path : String
  userAgent : String
  clientIP : String
  reqBodyLen : Nat
  status : Nat := 200
  respBody : RespBody := .empty
  spanInCtx : Bool := false
  spanRecording : Bool := false
deriving DecidableEq, Repr

/-- A fiber handler: consumes the context, yields the result, the updated
context and the emitted events in order. -/
def Handler : Type := Ctx → HResult × Ctx × List Event

/-- From `logging.go` lines 56-65: the status code the logging stage records.
If an error occurred and the response status is still 200 (`fiber.StatusOK`),
the effective code is 500 unless the error is a `*fiber.Error`, whose declared
code is used; otherwise the response's status code is recorded. -/
def effectiveStatusCode (err : Option GoError) (statusCode : Nat) : Nat :=
  match err with
  | some e =>
      if statusCode == 200 then
        match e with
        | .fiberError code _ => code
        | .errorf _ => 500
      else statusCode
  | none => statusCode

/-- `LoggingMiddleware` from `internal/middleware/logging.go` lines 36-117.
Logs "Incoming request", runs the rest of the chain, and on normal return
records the counter, duration and sizes and logs "Request completed" (plus
"Request error" iff an error is present). The stage has no deferred code, so
a panic in `c.Next()` skips everything after line 52. -/
def LoggingMiddleware (next : Handler) : Handler := fun c =>
  let incoming := Event.logInfo "Incoming request"
    ["http.method", "http.route", "http.path", "http.user_agent", "http.client_ip"]
  match next c with
  | (.panicked v, c2, ev) => (.panicked v, c2, incoming :: ev)
  | (.ret err, c2, ev) =>
      let statusCode := effectiveStatusCode err c2.status
      let post :=
        [Event.counterInc c2.method c2.routePath statusCode,
         Event.durationObs c2.method c2.routePath statusCode,
         Event.sizeObs "request", Event.sizeObs "response",
         Event.logInfo "Request completed"
           ["http.method", "http.route", "http.status_code", "http.request.duration_ms"]]
        ++ (match err with
            | some _ => [Event.logError "Request error" ["http.method", "http.path", "error"]]
            | none => [])
      (.ret err, c2, incoming :: ev ++ post)

/-- `TracingMiddleware` from `internal/middleware/logging.go` lines 131-179.
Starts a span named "METHOD route", installs it in the context, and runs the
chain. `defer span.End()` runs on every exit path (so the span stops
recording), but the post-`c.Next()` code — status attribute, error recording
and `propagator.Inject` into response headers — runs only on normal return. -/
def TracingMiddleware (serviceName : String) (next : Handler) : Handler := fun c =>
  let spanName := c.method ++ " " ++ c.routePath
  let startEvents :=
    [Event.spanStart spanName,
     Event.spanSetAttrStr "service.name" serviceName,
     Event.spanSetAttrStr "http.method" c.method]
  let c1 := { c with spanInCtx := true, spanRecording := true }
  match next c1 with
  | (.panicked v, c2, ev) =>
      (.panicked v, { c2 with spanRecording := false },
       startEvents ++ ev ++ [Event.spanEnd])
  | (.ret err, c2, ev) =>
      let post :=
        [Event.spanSetAttrStatus c2.status]
        ++ (match err with
            | some e => [Event.spanRecordError e.message, Event.spanSetStatusError e.message]
            | none => [])
        ++ [Event.injectHeaders, Event.spanEnd]
      (.ret err, { c2 with spanRecording := false }, startEvents ++ ev ++ post)

/-- `RecoveryMiddleware` from `internal/middleware/recovery.go` lines 15-52.
Its deferred closure runs after the deferred calls of inner frames (LIFO):
on a panic it recovers, annotates the span only if it is still recording,
emits one error-level log with stack, path and method, and writes the 500
JSON response; `recover` swallows the panic so the stage returns nil. -/
def RecoveryMiddleware (next : Handler) : Handler := fun c =>
  match next c with
  | (.ret err, c2, ev) => (.ret err, c2, ev)
  | (.panicked v, c2, ev) =>
      let spanEvents :=
        if c2.spanRecording then
          [Event.spanSetStatusError "panic recovered",
           Event.spanRecordError v,
           Event.spanSetAttrStr "panic.error" v,
           Event.spanSetAttrStr "panic.stack" "stack"]
        else []
      let logEv := [Event.logError "Panic recovered" ["error", "stack", "path", "method"]]
      (.ret none,
       { c2 with status := 500, respBody := .jsonError "Internal Server Error" },
       ev ++ spanEvents ++ logEv)

/-- What a route handler does, abstracting over the three observable outcomes
a fiber handler can have. -/
inductive HandlerBehavior where
  | succeed (status : Nat) (body : RespBody)
  | fail (e : GoError)
  | failStatus (status : Nat) (e : GoError)
  | panics (msg : String)
deriving DecidableEq, Repr

/-- Interpret a `HandlerBehavior` as a `Handler`. `succeed` writes status and
body; `fail` returns an error leaving the response untouched; `failStatus`
sets the response status and then returns an error; `panics` panics. -/
def mkHandler (b : HandlerBehavior) : Handler := fun c =>
  match b with
  | .succeed st body => (.ret none, { c with status := st, respBody := body }, [])
  | .fail e => (.ret (some e), c, [])
  | .failStatus st e => (.ret (some e), { c with status := st }, [])
  | .panics m => (.panicked m, c, [])

/-- The middleware stack registered in `main` (cmd file): Recovery outermost,
then Tracing (iff `cfg.TracingEnabled`), then Logging, then the route
handler. -/
def appPipeline (tracingEnabled : Bool) (serviceName : String) (h : Handler) : Handler :=
  RecoveryMiddleware
    (if tracingEnabled then TracingMiddleware serviceName (LoggingMiddleware h)
     else LoggingMiddleware h)

/-- A fresh inbound request context: response status defaults to 200, no span
installed yet. -/
def freshCtx (method routePath path : String) : Ctx :=
  { method := method, routePath := routePath, path := path,
    userAgent := "curl", clientIP := "127.0.0.1", reqBodyLen := 0 }

/-- Run the full pipeline on a fresh `GET /api/panic`-shaped request with the
given handler behavior. -/
def runPipeline (tracingEnabled : Bool) (b : HandlerBehavior) : HResult × Ctx × List Event :=
  appPipeline tracingEnabled "gofiberobservability" (mkHandler b)
    (freshCtx "GET" "/api/panic" "/api/panic")

/-- The events of a pipeline run. -/
def eventsOf (r : HResult × Ctx × List Event) : List Event := r.2.2

/-- Count of "Incoming request" info logs in a trace. -/
def countIncoming (ev : List Event) : Nat :=
  (ev.filter fun e => match e with
    | .logInfo "Incoming request" _ => true
    | _ => false).length

/-- Count of "Request completed" info logs in a trace. -/
def countCompleted (ev : List Event) : Nat :=
  (ev.filter fun e => match e with
    | .logInfo "Request completed" _ => true
    | _ => false).length

/-- Count of "Request error" error logs (the logging stage's error entry). -/
def countRequestErrorLogs (ev : List Event) : Nat :=
  (ev.filter fun e => match e with
    | .logError "Request error" _ => true
    | _ => false).length

/-- Count of request-counter increments. -/
def countCounterInc (ev : List Event) : Nat :=
  (ev.filter fun e => match e with
    | .counterInc _ _ _ => true
    | _ => false).length

/-- Count of duration observations. -/
def countDurationObs (ev : List Event) : Nat :=
  (ev.filter fun e => match e with
    | .durationObs _ _ _ => true
    | _ => false).length

/-- Count of span ends. -/
def countSpanEnd (ev : List Event) : Nat :=
  (ev.filter fun e => match e with
    | .spanEnd => true
    | _ => false).length

/-- Count of span starts. -/
def countSpanStart (ev : List Event) : Nat :=
  (ev.filter fun e => match e with
    | .spanStart _ => true
    | _ => false).length

/-- Count of trace-context injections into response headers. -/
def countInject (ev : List Event) : Nat :=
  (ev.filter fun e => match e with
    | .injectHeaders => true
    | _ => false).length

/-- Count of span-status-error markings. -/
def countSpanStatusError (ev : List Event) : Nat :=
  (ev.filter fun e => match e with
    | .spanSetStatusError _ => true
    | _ => false).length

/-- Count of "Panic recovered" error logs. -/
def countPanicRecoveredLogs (ev : List Event) : Nat :=
  (ev.filter fun e => match e with
    | .logError "Panic recovered" _ => true
    | _ => false).length

/-- Statuses recorded on counter increments, in order. -/
def counterStatuses (ev : List Event) : List Nat :=
  ev.filterMap fun e => match e with
    | .counterInc _ _ s => some s
    | _ => none

/-- The app `ErrorHandler` from `main` (cmd file) lines 69-85: a `*fiber.Error`
maps to its code, anything else to 500; the body is the error's message as
JSON. -/
def errorHandler (e : GoError) : Nat × RespBody :=
  match e with
  | .fiberError code _ => (code, .jsonError e.message)
  | .errorf _ => (500, .jsonError e.message)

/-!
Embedding of `handler.GetUser` (handler file, lines 136-182): cache-aside
read of one user by id. External collaborators (redis `Get`, pgx `QueryRow`,
redis `Set`) are inputs describing their outcome.
-/

/-- Outcome of `database.GetRedis().Get(ctx, cacheKey).Result()` combined with
the subsequent `json.Unmarshal`: the get errored (miss or unreachable alike),
or it returned a value that unmarshals to `u`, or a value that fails to
unmarshal. -/
inductive CacheLookup where
  | lookupErr
  | okValid (u : User)
  | okInvalid
deriving DecidableEq, Repr

/-- Outcome of the pgx `QueryRow(...).Scan(...)` for `SELECT ... WHERE id = $1`:
a row, no rows (`pgx.ErrNoRows`, message "no rows in result set"), or a query
failure from the dependency with the given cause. -/
inductive StoreLookup where
  | row (u : User)
  | noRows
  | queryFailure (cause : String)
deriving DecidableEq, Repr

/-- The message of the scan error in the error cases. -/
def StoreLookup.errMessage : StoreLookup → String
  | .row _ => ""
  | .noRows => "no rows in result set"
  | .queryFailure cause => cause

/-- `handler.GetUser`, translated line by line. `idStr` is `c.Params("id")`;
`cache` the redis lookup outcome; `store` the database lookup outcome;
`setFails` whether the fire-and-forget `Set` at line 178 would fail (its
return value is discarded by the source, so it can influence nothing).
Returns the handler's `error` or the user written with `c.JSON`, plus events.
`defer span.End()` makes `spanEnd` the last event on every path. -/
def GetUser (idStr : String) (cache : CacheLookup) (store : StoreLookup)
    (setFails : Bool) : Except GoError User × List Event :=
  let cacheKey := "user:" ++ idStr
  let startEvents :=
    [Event.spanStart "handler.get-user", Event.spanSetAttrStr "user.id" idStr]
  match cache with
  | .okValid u =>
      (Except.ok u,
       startEvents ++
       [Event.logInfo "Cache hit" ["id"],
        Event.spanSetAttrBool "cache.hit" true,
        Event.spanEnd])
  | c =>
      let warnEvents :=
        match c with
        | .okInvalid => [Event.logWarn "Failed to unmarshal cached user" ["error"]]
        | _ => []
      let missEvents :=
        [Event.logInfo "Cache miss" ["id"],
         Event.spanSetAttrBool "cache.hit" false]
      match store with
      | .row u =>
          let _ := setFails
          (Except.ok u,
           startEvents ++ warnEvents ++ missEvents ++
           [Event.cacheSet cacheKey u 10, Event.spanEnd])
      | s =>
          (Except.error (GoError.fiberError 404 "User not found"),
           startEvents ++ warnEvents ++ missEvents ++
           [Event.logError "User not found" ["id", s.errMessage], Event.spanEnd])

/-- Count of cache writes in a trace. -/
def countCacheSet (ev : List Event) : Nat :=
  (ev.filter fun e => match e with
    | .cacheSet _ _ _ => true
    | _ => false).length

/-- Count of error-level or warn-level log entries in a trace. -/
def countWarnOrErrorLogs (ev : List Event) : Nat :=
  (ev.filter fun e => match e with
    | .logError _ _ => true
    | .logWarn _ _ => true
    | _ => false).length

/-- Error-level log entries whose field list contains the given string. -/
def countErrorLogsWithField (ev : List Event) (f : String) : Nat :=
  (ev.filter fun e => match e with
    | .logError _ fields => fields.contains f
    | _ => false).length

/-!
Embedding of `handler.ListUsers` (handler file, lines 33-93): pagination
parsing and clamping, then the paged select.
-/

/-- Go `strconv.Atoi`: optional sign then decimal digits, nothing else;
`none` models the error case (in which Go also returns the value 0). -/
def atoi (s : String) : Option Int :=
  let cs := s.toList
  match cs with
  | [] => none
  | c :: rest =>
      let neg := c = '-'
      let digits := if c = '-' ∨ c = '+' then rest else cs
      if digits = [] then none
      else if digits.all Char.isDigit then
        let n : Nat := digits.foldl (fun a d => a * 10 + (d.toNat - 48)) 0
        some (if neg then -(n : Int) else (n : Int))
      else none

/-- Fiber v3 `c.Query(key, default)`: the default is used when the parameter
is absent or its value is the empty string. -/
def queryGet (q : Option String) (d : String) : String :=
  match q with
  | none => d
  | some s => if s = "" then d else s

/-- `ListUsers` lines 39-42: parse `limit` with default "10", discard the
parse error (Go yields 0 then), clamp values above 100 to 100. -/
def parseLimitParam (limitQ : Option String) : Int :=
  let l := (atoi (queryGet limitQ "10")).getD 0
  if l > 100 then 100 else l

/-- `ListUsers` lines 43-46: parse `page` with default "1", discard the parse
error (Go yields 0 then), clamp values below 1 to 1. -/
def parsePageParam (pageQ : Option String) : Int :=
  let p := (atoi (queryGet pageQ "1")).getD 0
  if p < 1 then 1 else p

/-- The external store's `SELECT ... ORDER BY id LIMIT $1 OFFSET $2` against a
table already in id order. PostgreSQL rejects negative LIMIT/OFFSET values. -/
def sqlSelectUsers (db : List User) (limit offset : Int) : Except String (List User) :=
  if limit < 0 then Except.error "LIMIT must not be negative"
  else if offset < 0 then Except.error "OFFSET must not be negative"
  else Except.ok ((db.drop offset.toNat).take limit.toNat)

/-- `handler.ListUsers`: clamp the pagination parameters, compute
`offset := (page - 1) * limit`, run the select; a query error maps to
`fiber.NewError(500, "Failed to fetch users")`, success to the user page
plus the metadata limit and page. -/
def ListUsers (limitQ pageQ : Option String) (db : List User) :
    Except GoError (List User × Int × Int) :=
  let limit := parseLimitParam limitQ
  let page := parsePageParam pageQ
  let offset := (page - 1) * limit
  match sqlSelectUsers db limit offset with
  | Except.error _ => Except.error (GoError.fiberError 500 "Failed to fetch users")
  | Except.ok rows => Except.ok (rows, limit, page)

/-!
Embedding of the shutdown path: the deferred calls registered by `main` run
in LIFO order after the HTTP server stops, giving the teardown sequence
redis close → pool close → metrics shutdown → tracer shutdown → logger
shutdown. Per-step timeout bounds are read off the respective `Shutdown` and
`Close` functions.
-/

/-- One subsystem teardown step of `main`'s deferred calls. -/
inductive ShutdownStep where
  | closeRedis
  | closeDB
  | metricsShutdown
  | tracerShutdown
  | loggerShutdown
deriving DecidableEq, Repr

/-- The teardown order: `main` registers defers for logger, tracer, metrics,
database, redis in that order, so they run reversed. -/
def shutdownSequence : List ShutdownStep :=
  [.closeRedis, .closeDB, .metricsShutdown, .tracerShutdown, .loggerShutdown]

/-- The timeout, in seconds, bounding each step, read off the source:
`database.CloseRedis` calls `rdb.Close()` with no context; `database.Close`
calls `pool.Close()` with no context; `metrics.Shutdown` passes `main`'s
`context.Background()` through without `WithTimeout`; `tracer.Shutdown` and
`logger.Shutdown` wrap their context with `context.WithTimeout(ctx, 10*time.Second)`. -/
def stepTimeoutSeconds : ShutdownStep → Option Nat
  | .closeRedis => none
  | .closeDB => none
  | .metricsShutdown => none
  | .tracerShutdown => some 10
  | .loggerShutdown => some 10

/-- Which steps fail during a given shutdown (pool.Close cannot fail: it
returns nothing). -/
structure ShutdownFailures where
  redisFails : Bool
  metricsFails : Bool
  tracerFails : Bool
  loggerFails : Bool
deriving DecidableEq, Repr

/-- The log events one teardown step emits, from the source of
`database.CloseRedis`, `database.Close`, `metrics.Shutdown`,
`tracer.Shutdown`, `logger.Shutdown`: each failure is logged at error level,
each success at info level. -/
def runShutdownStep (f : ShutdownFailures) : ShutdownStep → List Event
  | .closeRedis =>
      if f.redisFails then [Event.logError "Failed to close Redis" ["error"]]
      else [Event.logInfo "Redis connection closed" []]
  | .closeDB => [Event.logInfo "PostgreSQL connection pool closed" []]
  | .metricsShutdown =>
      if f.metricsFails then [Event.logError "Error shutting down meter provider" ["error"]]
      else [Event.logInfo "Meter provider shut down successfully" []]
  | .tracerShutdown =>
      Event.logInfo "Shutting down tracer provider..." [] ::
      (if f.tracerFails then [Event.logError "Error shutting down tracer provider" ["error"]]
       else [Event.logInfo "Tracer provider shut down successfully" []])
  | .loggerShutdown =>
      Event.logInfo "Shutting down logger provider..." [] ::
      (if f.loggerFails then [Event.logError "Error shutting down logger provider" ["error"]]
       else [Event.logInfo "Logger provider shut down successfully" []])

/-- Run the whole teardown: Go runs every deferred call in sequence — an
error returned by one deferred call (discarded by `defer`) never prevents the
remaining defers from running. -/
def runShutdown (f : ShutdownFailures) : List (ShutdownStep × List Event) :=
  shutdownSequence.map fun s => (s, runShutdownStep f s)

/-- Events emitted by a full pipeline run over a handler behavior. -/
def pipelineEvents (te : Bool) (sn : String) (b : HandlerBehavior) (c : Ctx) : List Event :=
  (appPipeline te sn (mkHandler b) c).2.2

/-- Result of a full pipeline run over a handler behavior. -/
def pipelineResult (te : Bool) (sn : String) (b : HandlerBehavior) (c : Ctx) : HResult :=
  (appPipeline te sn (mkHandler b) c).1

/-- Final context of a full pipeline run over a handler behavior. -/
def pipelineCtx (te : Bool) (sn : String) (b : HandlerBehavior) (c : Ctx) : Ctx :=
  (appPipeline te sn (mkHandler b) c).2.1

/-- A sample user row. -/
def sampleUser : User :=
  { id := 1, name := "Alice", email := "a@x.com", createdAt := 0 }

/-- C1, counterexample: when the handler panics, the logging/metrics stage
does NOT produce a "completed" log entry, a counter increment or a duration
observation — its post-handler code is skipped by the unwinding panic, which
is only contained by the outer recovery stage. The claim's "exactly one ...
regardless of ... panics" is false at this input. -/
theorem c1_counterexample :
    countIncoming (eventsOf (runPipeline true (.panics "This is a simulated panic!"))) = 1 ∧
    countCompleted (eventsOf (runPipeline true (.panics "This is a simulated panic!"))) = 0 ∧
    countCounterInc (eventsOf (runPipeline true (.panics "This is a simulated panic!"))) = 0 ∧
    countDurationObs (eventsOf (runPipeline true (.panics "This is a simulated panic!"))) = 0 := by
  decide

/-- C1, amended: for every request whose handler returns normally or with an
error, the logging/metrics stage produces exactly one "incoming" and one
"completed" log entry, an additional "error" entry iff an error occurred, and
exactly one counter increment and one duration observation; when the handler
panics, it produces exactly one "incoming" entry and none of the others,
because the panic bypasses the stage's completion code. -/
theorem c1_logging_metrics_per_request (te : Bool) (sn : String) (c : Ctx) (b : HandlerBehavior) :
    countIncoming (pipelineEvents te sn b c) = 1 ∧
    (match b with
     | .panics _ =>
         countCompleted (pipelineEvents te sn b c) = 0 ∧
         countCounterInc (pipelineEvents te sn b c) = 0 ∧
         countDurationObs (pipelineEvents te sn b c) = 0 ∧
         countRequestErrorLogs (pipelineEvents te sn b c) = 0
     | .succeed _ _ =>
         countCompleted (pipelineEvents te sn b c) = 1 ∧
         countCounterInc (pipelineEvents te sn b c) = 1 ∧
         countDurationObs (pipelineEvents te sn b c) = 1 ∧
         countRequestErrorLogs (pipelineEvents te sn b c) = 0
     | .fail _ =>
         countCompleted (pipelineEvents te sn b c) = 1 ∧
         countCounterInc (pipelineEvents te sn b c) = 1 ∧
         countDurationObs (pipelineEvents te sn b c) = 1 ∧
         countRequestErrorLogs (pipelineEvents te sn b c) = 1
     | .failStatus _ _ =>
         countCompleted (pipelineEvents te sn b c) = 1 ∧
         countCounterInc (pipelineEvents te sn b c) = 1 ∧
         countDurationObs (pipelineEvents te sn b c) = 1 ∧
         countRequestErrorLogs (pipelineEvents te sn b c) = 1) := by
  cases b <;> cases te <;>
    simp [pipelineEvents, appPipeline, RecoveryMiddleware, TracingMiddleware,
      LoggingMiddleware, mkHandler, countIncoming, countCompleted, countCounterInc,
      countDurationObs, countRequestErrorLogs, List.filter] <;>
    try (refine ⟨?_, ?_, ?_, ?_, ?_⟩ <;> (rintro a - (rfl | rfl | rfl | rfl) <;> rfl))

/-- C2, counterexample: on `GET /api/panic` the recovery stage does NOT mark
the request span as failed: the tracing stage's deferred `span.End()` runs
while the panic unwinds, before recovery's deferred closure, so the span is no
longer recording and the annotation block is skipped. Zero span-status-error
markings occur although the recovery log and the panic are present. -/
theorem c2_counterexample :
    countSpanStatusError (eventsOf (runPipeline true (.panics "This is a simulated panic!"))) = 0 ∧
    countPanicRecoveredLogs (eventsOf (runPipeline true (.panics "This is a simulated panic!"))) = 1 := by
  decide

/-- C2, amended: for every request whose handler panics, the recovery stage
catches the fault, emits exactly one error-level log entry carrying the error,
stack, path and method, and writes the HTTP 500 JSON response
"Internal Server Error"; the fault never escapes the middleware stack (the
stage returns nil). The active request span is ended exactly once but is NOT
marked failed: by the time the recovery closure runs, the tracing stage's
deferred span end has already executed, so the span no longer records and the
annotation block is skipped. -/
theorem c2_panic_recovery (sn : String) (c : Ctx) (m : String) :
    pipelineResult true sn (.panics m) c = .ret none ∧
    (pipelineCtx true sn (.panics m) c).status = 500 ∧
    (pipelineCtx true sn (.panics m) c).respBody = .jsonError "Internal Server Error" ∧
    countPanicRecoveredLogs (pipelineEvents true sn (.panics m) c) = 1 ∧
    Event.logError "Panic recovered" ["error", "stack", "path", "method"]
      ∈ pipelineEvents true sn (.panics m) c ∧
    countSpanEnd (pipelineEvents true sn (.panics m) c) = 1 ∧
    countSpanStatusError (pipelineEvents true sn (.panics m) c) = 0 := by
  simp [pipelineResult, pipelineCtx, pipelineEvents, appPipeline, RecoveryMiddleware,
    TracingMiddleware, LoggingMiddleware, mkHandler, countPanicRecoveredLogs,
    countSpanEnd, countSpanStatusError, List.filter]

/-- C8, counterexample: when the handler panics, the tracing stage never
injects the trace context into the response headers — `propagator.Inject` is
not deferred and the panic skips it. -/
theorem c8_counterexample :
    countInject (eventsOf (runPipeline true (.panics "This is a simulated panic!"))) = 0 := by
  decide

/-- C8, amended: for every request passing through the tracing stage, the
request span is started and ended exactly once, regardless of outcome — no
span remains open. The trace context is injected into the outbound response
headers exactly once when the handler returns normally or with an error, but
zero times when the handler panics, because `propagator.Inject` is not
deferred and the unwinding panic skips it. -/
theorem c8_span_lifecycle (sn : String) (c : Ctx) (b : HandlerBehavior) :
    countSpanStart (pipelineEvents true sn b c) = 1 ∧
    countSpanEnd (pipelineEvents true sn b c) = 1 ∧
    (match b with
     | .panics _ => countInject (pipelineEvents true sn b c) = 0
     | _ => countInject (pipelineEvents true sn b c) = 1) := by
  cases b <;>
    simp [pipelineEvents, appPipeline, RecoveryMiddleware, TracingMiddleware,
      LoggingMiddleware, mkHandler, countSpanStart, countSpanEnd, countInject, List.filter]

/-- The status an error declares to the logging stage: a `*fiber.Error`'s code,
500 for any other error (`logging.go` lines 60-64). -/
def declaredCode : GoError → Nat
  | .fiberError code _ => code
  | .errorf _ => 500

/-- Statuses recorded on duration observations, in order. -/
def durationStatuses (ev : List Event) : List Nat :=
  ev.filterMap fun e => match e with
    | .durationObs _ _ s => some s
    | _ => none

/-- C6: when the handler returns an error and the response status is still the
default 200, the logging/metrics stage records the error's declared HTTP code
(500 if it declares none) on its single counter increment and duration
observation; when the response status is not 200, it records the response's
status code. -/
theorem c6_effective_status (sn : String) (c : Ctx) (st : Nat) (e : GoError) :
    counterStatuses (pipelineEvents true sn (.failStatus st e) c) =
      [if st = 200 then declaredCode e else st] ∧
    durationStatuses (pipelineEvents true sn (.failStatus st e) c) =
      [if st = 200 then declaredCode e else st] := by
  cases e <;>
    simp [pipelineEvents, appPipeline, RecoveryMiddleware, TracingMiddleware,
      LoggingMiddleware, mkHandler, counterStatuses, durationStatuses,
      effectiveStatusCode, declaredCode, List.filterMap]

/-- C3, counterexample: when the store query fails for a dependency reason
(connection refused, not a missing row), `GetUser` still returns
`fiber.NewError(404, "User not found")`, which the app error handler surfaces
as HTTP 404 — not the 500 the claim requires. -/
theorem c3_counterexample :
    (GetUser "7" .lookupErr (.queryFailure "connection refused") false).1 =
      Except.error (.fiberError 404 "User not found") ∧
    (errorHandler (.fiberError 404 "User not found")).1 = 404 ∧
    (errorHandler (.fiberError 404 "User not found")).1 ≠ 500 := by
  exact ⟨rfl, rfl, by decide⟩

/-- C3, amended: every store query failure after a cache miss — whether the
row is absent or the dependency fails — is surfaced as HTTP 404 with the
generic message "User not found"; the failure is logged at error level with
the underlying cause, and the client sees only the generic message. -/
theorem c3_store_failure_maps_to_404 (id cause : String) (cache : CacheLookup)
    (sf : Bool) (hc : ∀ u, cache ≠ .okValid u) :
    (GetUser id cache (.queryFailure cause) sf).1 =
      Except.error (.fiberError 404 "User not found") ∧
    countErrorLogsWithField (GetUser id cache (.queryFailure cause) sf).2 cause = 1 ∧
    errorHandler (.fiberError 404 "User not found") = (404, .jsonError "User not found") := by
  cases cache with
  | okValid u => exact absurd rfl (hc u)
  | lookupErr =>
      refine ⟨rfl, ?_, rfl⟩
      simp [GetUser, countErrorLogsWithField, StoreLookup.errMessage, List.filter]
  | okInvalid =>
      refine ⟨rfl, ?_, rfl⟩
      simp [GetUser, countErrorLogsWithField, StoreLookup.errMessage, List.filter]

/-- C3 witness. -/
theorem c3_store_failure_maps_to_404_witness :
    (GetUser "7" CacheLookup.lookupErr (.queryFailure "connection refused") false).1 =
      Except.error (.fiberError 404 "User not found") :=
  (c3_store_failure_maps_to_404 "7" "connection refused" CacheLookup.lookupErr false
    (fun u h => nomatch h)).1

/-- C4: a cache-miss read of an id absent from the store fails with a
NotFound error that the app error handler surfaces as HTTP 404, and performs
no cache write. -/
theorem c4_not_found_no_cache_write (id : String) (cache : CacheLookup) (sf : Bool)
    (hc : ∀ u, cache ≠ .okValid u) :
    (GetUser id cache .noRows sf).1 = Except.error (.fiberError 404 "User not found") ∧
    countCacheSet (GetUser id cache .noRows sf).2 = 0 ∧
    errorHandler (.fiberError 404 "User not found") = (404, .jsonError "User not found") := by
  cases cache with
  | okValid u => exact absurd rfl (hc u)
  | lookupErr =>
      refine ⟨rfl, ?_, rfl⟩
      simp [GetUser, countCacheSet, List.filter]
  | okInvalid =>
      refine ⟨rfl, ?_, rfl⟩
      simp [GetUser, countCacheSet, List.filter]

/-- C4 witness: `GET /api/users/999999` on a miss with no matching row. -/
theorem c4_not_found_no_cache_write_witness :
    (GetUser "999999" CacheLookup.lookupErr .noRows false).1 =
      Except.error (.fiberError 404 "User not found") ∧
    countCacheSet (GetUser "999999" CacheLookup.lookupErr .noRows false).2 = 0 := by
  have h := c4_not_found_no_cache_write "999999" CacheLookup.lookupErr false
    (fun u hu => nomatch hu)
  exact ⟨h.1, h.2.1⟩

/-- C7, counterexample: the cache write at line 178 of the handler file is
fire-and-forget — its return value is discarded, so a failing write produces
no log at all: the whole trace of a miss-then-hydrate read contains zero
warn- or error-level entries even when the write fails, refuting "any
cache-write failure is logged". -/
theorem c7_counterexample :
    (GetUser "1" .lookupErr (.row sampleUser) true).1 = Except.ok sampleUser ∧
    countCacheSet (GetUser "1" .lookupErr (.row sampleUser) true).2 = 1 ∧
    countWarnOrErrorLogs (GetUser "1" .lookupErr (.row sampleUser) true).2 = 0 := by
  exact ⟨rfl, rfl, rfl⟩

/-- C7, amended: for every cache-miss read whose store lookup succeeds, the
resource is written to the cache under key "user:<id>" with a fixed 10-minute
ttl and the response carries the resource; the write is fire-and-forget: a
cache-write failure neither fails the read nor is logged — the handler's
outcome and emitted events are identical whether or not the write fails. -/
theorem c7_hydrate_fire_and_forget (id : String) (u : User) (cache : CacheLookup)
    (sf : Bool) (hc : ∀ v, cache ≠ .okValid v) :
    (GetUser id cache (.row u) sf).1 = Except.ok u ∧
    ((GetUser id cache (.row u) sf).2.filter fun e => match e with
      | .cacheSet _ _ _ => true
      | _ => false) = [Event.cacheSet ("user:" ++ id) u 10] ∧
    GetUser id cache (.row u) sf = GetUser id cache (.row u) false := by
  cases cache with
  | okValid v => exact absurd rfl (hc v)
  | lookupErr => exact ⟨rfl, by simp [GetUser, List.filter], rfl⟩
  | okInvalid => exact ⟨rfl, by simp [GetUser, List.filter], rfl⟩

/-- C7 witness. -/
theorem c7_hydrate_fire_and_forget_witness :
    (GetUser "1" CacheLookup.lookupErr (.row sampleUser) true).1 = Except.ok sampleUser ∧
    GetUser "1" CacheLookup.lookupErr (.row sampleUser) true =
      GetUser "1" CacheLookup.lookupErr (.row sampleUser) false := by
  have h := c7_hydrate_fire_and_forget "1" sampleUser CacheLookup.lookupErr true
    (fun v hv => nomatch hv)
  exact ⟨h.1, h.2.2⟩

/-- The clamped page parameter is always at least 1. -/
theorem parsePageParam_pos (pq : Option String) : 1 ≤ parsePageParam pq := by
  unfold parsePageParam
  by_cases h : ((atoi (queryGet pq "1")).getD 0) < 1 <;> simp [h] <;> omega

/-- C5: pagination parameters are clamped before use — a parsed `limit` above
100 becomes 100, a parsed `page` below 1 becomes 1 — and the select runs at
offset `(page - 1) * limit` with the clamped values, which are also returned
in the metadata. -/
theorem c5_pagination_clamping (lq pq : Option String) (db : List User) :
    (100 < (atoi (queryGet lq "10")).getD 0 → parseLimitParam lq = 100) ∧
    ((atoi (queryGet pq "1")).getD 0 < 1 → parsePageParam pq = 1) ∧
    (0 ≤ parseLimitParam lq →
      ListUsers lq pq db =
        Except.ok
          ((db.drop ((parsePageParam pq - 1) * parseLimitParam lq).toNat).take
             (parseLimitParam lq).toNat,
           parseLimitParam lq, parsePageParam pq)) := by
  refine ⟨?_, ?_, ?_⟩
  · intro h
    unfold parseLimitParam
    rw [if_pos h]
  · intro h
    unfold parsePageParam
    rw [if_pos h]
  · intro h
    have hp := parsePageParam_pos pq
    have hoff : 0 ≤ (parsePageParam pq - 1) * parseLimitParam lq :=
      mul_nonneg (by omega) h
    have hs : sqlSelectUsers db (parseLimitParam lq)
        ((parsePageParam pq - 1) * parseLimitParam lq) =
        Except.ok ((db.drop ((parsePageParam pq - 1) * parseLimitParam lq).toNat).take
          (parseLimitParam lq).toNat) := by
      unfold sqlSelectUsers
      rw [if_neg (by omega), if_neg (by omega)]
    simp [ListUsers, hs]

/-- C5 witness: `limit=1000` clamps to 100, `page=0` clamps to 1, offset 0. -/
theorem c5_pagination_clamping_witness :
    parseLimitParam (some "1000") = 100 ∧ parsePageParam (some "0") = 1 ∧
    ListUsers (some "1000") (some "0") [] = Except.ok ([], 100, 1) := by
  have h := c5_pagination_clamping (some "1000") (some "0") []
  refine ⟨h.1 (by decide), h.2.1 (by decide), ?_⟩
  rw [h.2.2 (by decide)]
  rfl

/-- C10: a present, non-empty, non-numeric `limit` makes `strconv.Atoi` fail;
the discarded error leaves limit = 0 (not the default 10), the select runs
with LIMIT 0 and the response's user list is empty with limit 0 in the
metadata; likewise a non-numeric `page` parses to 0 and is clamped to 1. -/
theorem c10_non_numeric_pagination (s : String) (pq : Option String) (db : List User)
    (h1 : s ≠ "") (h2 : atoi s = none) :
    ListUsers (some s) pq db = Except.ok ([], 0, parsePageParam pq) ∧
    parsePageParam (some s) = 1 := by
  have hq : queryGet (some s) "10" = s := by simp [queryGet, h1]
  have hq1 : queryGet (some s) "1" = s := by simp [queryGet, h1]
  have hl : parseLimitParam (some s) = 0 := by
    simp [parseLimitParam, hq, h2]
  constructor
  · have hs : sqlSelectUsers db 0 0 = Except.ok [] := by
      simp [sqlSelectUsers]
    simp [ListUsers, hl, hs]
  · simp [parsePageParam, hq1, h2]

/-- C10 witness: `?limit=abc&page=xyz` yields an empty page with limit 0 and
page 1 even over a non-empty table. -/
theorem c10_non_numeric_pagination_witness :
    ListUsers (some "abc") (some "xyz") [sampleUser] = Except.ok ([], 0, 1) ∧
    parsePageParam (some "abc") = 1 := by
  have h := c10_non_numeric_pagination "abc" (some "xyz") [sampleUser]
    (by decide) (by decide)
  refine ⟨?_, h.2⟩
  rw [h.1]
  rfl

/-- Whether a step's event list contains an error-level log entry. -/
def hasErrorLog (ev : List Event) : Bool :=
  ev.any fun e => match e with
    | .logError _ _ => true
    | _ => false

/-- C9, counterexample: three of the five teardown steps are NOT bounded by
any timeout, let alone a 10-second one — `database.CloseRedis` and
`database.Close` take no context at all, and `metrics.Shutdown` passes
`main`'s `context.Background()` through without `WithTimeout`. -/
theorem c9_counterexample :
    stepTimeoutSeconds ShutdownStep.closeRedis = none ∧
    stepTimeoutSeconds ShutdownStep.closeDB = none ∧
    stepTimeoutSeconds ShutdownStep.metricsShutdown = none :=
  ⟨rfl, rfl, rfl⟩

/-- C9, amended: shutdown attempts every teardown step in reverse init order
regardless of which steps fail, and each failing step is logged at error
level; only the trace-exporter and log-exporter shutdowns are bounded by the
fixed 10-second timeout — the cache close, store-pool close and metrics
shutdown carry no timeout. -/
theorem c9_shutdown_best_effort (f : ShutdownFailures) :
    (runShutdown f).map Prod.fst = shutdownSequence ∧
    (f.redisFails = true → hasErrorLog (runShutdownStep f .closeRedis) = true) ∧
    (f.metricsFails = true → hasErrorLog (runShutdownStep f .metricsShutdown) = true) ∧
    (f.tracerFails = true → hasErrorLog (runShutdownStep f .tracerShutdown) = true) ∧
    (f.loggerFails = true → hasErrorLog (runShutdownStep f .loggerShutdown) = true) ∧
    stepTimeoutSeconds .tracerShutdown = some 10 ∧
    stepTimeoutSeconds .loggerShutdown = some 10 ∧
    stepTimeoutSeconds .closeRedis = none ∧
    stepTimeoutSeconds .closeDB = none ∧
    stepTimeoutSeconds .metricsShutdown = none := by
  refine ⟨rfl, ?_, ?_, ?_, ?_, rfl, rfl, rfl, rfl, rfl⟩ <;>
    · intro h
      simp [runShutdownStep, hasErrorLog, h]

/-- C9 witness: with every fallible step failing, all five steps still run in
order and the tracer failure is logged. -/
theorem c9_shutdown_best_effort_witness :
    (runShutdown ⟨true, true, true, true⟩).map Prod.fst = shutdownSequence ∧
    hasErrorLog (runShutdownStep ⟨true, true, true, true⟩ .tracerShutdown) = true := by
  have h := c9_shutdown_best_effort ⟨true, true, true, true⟩
  exact ⟨h.1, h.2.2.2.1 rfl⟩
